import Mathlib

/-!
Shallow embedding of the calculator application in `src/main.py`
(repository Saksham382/python-calculator).

The program is a single-file tkinter calculator with a hidden
password-protected folder.  The embedding below models, faithfully to the
source:

* `hash_password` / `verify_password` (lines 29-35): SHA-256 over the
  UTF-8 encoding of the password, hex encoded (`hashlib.sha256(...).hexdigest()`).
  SHA-256 itself is implemented here from FIPS 180-4, over `Nat` with
  explicit reduction modulo `2 ^ 32`.
* `CalculatorApp.append_to_display` (370-375), `clear` (377-379),
  `calculate` (381-407): character validation (the regex
  `^[\d+\-×÷/().\s]+$`), glyph substitution
  (`.replace('×','*').replace('÷','/')`), evaluation by Python `eval`
  restricted to the characters that survive validation, and result
  normalization.
* `CalculatorApp.check_secret_code` (409-412) and `open_secret_folder`
  (414-434), together with `PasswordWindow.verify` (156-179): the
  secret-access gate, modelled as explicit state passing over an
  application state carrying the display string, a small filesystem
  model, the open prompt session, and a counter of reveal-callback
  invocations.

Python `eval` on the validated character set is modelled by a tokenizer,
a recursive-descent parser following Python's expression grammar for the
reachable operators (`+ - * / // ** ( )`, unary `+`/`-`, int and
pointfloat literals), and an evaluator.  Python ints are `Int` (both are
arbitrary precision, so this is exact); Python floats are IEEE-754
binary64 doubles, modelled by `F64` with explicit round-to-nearest-even
(including gradual underflow and overflow to infinity), so the evaluated
values coincide bit for bit with CPython's on every operation the model
marks as succeeding.  The operations CPython delegates to platform libm
(`**` with a float operand or negative exponent) and float `//` are
mapped to a distinguished `unsupported` error rather than approximated;
no theorem relies on those branches.
-/

set_option maxRecDepth 10000

namespace PyCalc

/-! ## SHA-256 (FIPS 180-4), as used by `hashlib.sha256(...).hexdigest()` -/

/-- Reduce a `Nat` to a 32-bit word. -/
def w32 (n : Nat) : Nat := n % 4294967296

/-- 32-bit addition. -/
def add32 (a b : Nat) : Nat := (a + b) % 4294967296

/-- Right rotation of a 32-bit word by `k` bits. -/
def rotr (k x : Nat) : Nat := w32 ((x >>> k) ||| (x <<< (32 - k)))

/-- Bitwise complement of a 32-bit word. -/
def not32 (x : Nat) : Nat := x ^^^ 4294967295

/-- SHA-256 `Ch` function. -/
def ch (x y z : Nat) : Nat := (x &&& y) ^^^ (not32 x &&& z)

/-- SHA-256 `Maj` function. -/
def maj (x y z : Nat) : Nat := (x &&& y) ^^^ (x &&& z) ^^^ (y &&& z)

/-- SHA-256 `Σ₀`. -/
def bsig0 (x : Nat) : Nat := rotr 2 x ^^^ rotr 13 x ^^^ rotr 22 x

/-- SHA-256 `Σ₁`. -/
def bsig1 (x : Nat) : Nat := rotr 6 x ^^^ rotr 11 x ^^^ rotr 25 x

/-- SHA-256 `σ₀`. -/
def ssig0 (x : Nat) : Nat := rotr 7 x ^^^ rotr 18 x ^^^ (x >>> 3)

/-- SHA-256 `σ₁`. -/
def ssig1 (x : Nat) : Nat := rotr 17 x ^^^ rotr 19 x ^^^ (x >>> 10)

/-- The 64 SHA-256 round constants (decimal form of the FIPS 180-4
table). -/
def sha256K : List Nat :=
  [1116352408, 1899447441, 3049323471, 3921009573, 961987163,
   1508970993, 2453635748, 2870763221, 3624381080, 310598401,
   607225278, 1426881987, 1925078388, 2162078206, 2614888103,
   3248222580, 3835390401, 4022224774, 264347078, 604807628,
   770255983, 1249150122, 1555081692, 1996064986, 2554220882,
   2821834349, 2952996808, 3210313671, 3336571891, 3584528711,
   113926993, 338241895, 666307205, 773529912, 1294757372,
   1396182291, 1695183700, 1986661051, 2177026350, 2456956037,
   2730485921, 2820302411, 3259730800, 3345764771, 3516065817,
   3600352804, 4094571909, 275423344, 430227734, 506948616,
   659060556, 883997877, 958139571, 1322822218, 1537002063,
   1747873779, 1955562222, 2024104815, 2227730452, 2361852424,
   2428436474, 2756734187, 3204031479, 3329325298]

/-- The SHA-256 initial hash value (decimal form of the FIPS 180-4
table). -/
def sha256H0 : List Nat :=
  [1779033703, 3144134277, 1013904242, 2773480762,
   1359893119, 2600822924, 528734635, 1541459225]

/-- UTF-8 encoding of one character (Python `str.encode()`), as bytes. -/
def utf8Char (c : Char) : List Nat :=
  let n := c.toNat
  if n < 0x80 then [n]
  else if n < 0x800 then
    [0xC0 ||| (n >>> 6), 0x80 ||| (n &&& 0x3F)]
  else if n < 0x10000 then
    [0xE0 ||| (n >>> 12), 0x80 ||| ((n >>> 6) &&& 0x3F), 0x80 ||| (n &&& 0x3F)]
  else
    [0xF0 ||| (n >>> 18), 0x80 ||| ((n >>> 12) &&& 0x3F),
     0x80 ||| ((n >>> 6) &&& 0x3F), 0x80 ||| (n &&& 0x3F)]

/-- UTF-8 encoding of a string (Python `str.encode()`), as bytes. -/
def utf8Bytes (s : String) : List Nat := (s.toList.map utf8Char).flatten

/-- Big-endian 8-byte encoding of a length in bits. -/
def be64 (n : Nat) : List Nat :=
  [(n >>> 56) &&& 255, (n >>> 48) &&& 255, (n >>> 40) &&& 255,
   (n >>> 32) &&& 255, (n >>> 24) &&& 255, (n >>> 16) &&& 255,
   (n >>> 8) &&& 255, n &&& 255]

/-- SHA-256 message padding: append `0x80`, zero bytes to 56 mod 64, then
the 64-bit big-endian bit length. -/
def padMessage (msg : List Nat) : List Nat :=
  let padZeros := (119 - msg.length % 64) % 64
  msg ++ [0x80] ++ List.replicate padZeros 0 ++ be64 (8 * msg.length)

/-- Pack bytes into big-endian 32-bit words (fuel-driven). -/
def bytesToWords : Nat → List Nat → List Nat
  | 0, _ => []
  | _ + 1, [] => []
  | fuel + 1, b0 :: b1 :: b2 :: b3 :: rest =>
      ((b0 <<< 24) ||| (b1 <<< 16) ||| (b2 <<< 8) ||| b3) :: bytesToWords fuel rest
  | _ + 1, _ => []

/-- Split a word list into 16-word blocks (fuel-driven). -/
def toBlocks : Nat → List Nat → List (List Nat)
  | 0, _ => []
  | _ + 1, [] => []
  | fuel + 1, ws => ws.take 16 :: toBlocks fuel (ws.drop 16)

/-- Extend a 16-word block to the 64-word message schedule. -/
def extendSchedule : Nat → List Nat → List Nat
  | 0, w => w
  | n + 1, w =>
      let s := w.length
      let x := add32 (add32 (ssig1 (w.getD (s - 2) 0)) (w.getD (s - 7) 0))
                     (add32 (ssig0 (w.getD (s - 15) 0)) (w.getD (s - 16) 0))
      extendSchedule n (w ++ [x])

/-- One SHA-256 round: `kw` is `K[t] + W[t]` (mod `2^32`). -/
def sha256Round (st : List Nat) (kw : Nat) : List Nat :=
  match st with
  | [a, b, c, d, e, f, g, h] =>
      let t1 := add32 h (add32 (bsig1 e) (add32 (ch e f g) kw))
      let t2 := add32 (bsig0 a) (maj a b c)
      [add32 t1 t2, a, b, c, add32 d t1, e, f, g]
  | other => other

/-- Compress one 16-word block into the running hash value. -/
def sha256Compress (h : List Nat) (block : List Nat) : List Nat :=
  let w := extendSchedule 48 block
  let kws := (List.range 64).map (fun i => add32 (sha256K.getD i 0) (w.getD i 0))
  let fin := kws.foldl sha256Round h
  List.zipWith add32 h fin

/-- SHA-256 digest of a byte list, as eight 32-bit words. -/
def sha256Words (msg : List Nat) : List Nat :=
  let padded := padMessage msg
  let blocks := toBlocks (padded.length + 1) (bytesToWords (padded.length + 1) padded)
  blocks.foldl sha256Compress sha256H0

/-- Lower-case hex digit. -/
def hexDigit (n : Nat) : Char :=
  if n < 10 then Char.ofNat (48 + n) else Char.ofNat (87 + n)

/-- Eight-hex-digit rendering of a 32-bit word. -/
def wordToHex (n : Nat) : List Char :=
  [hexDigit ((n >>> 28) &&& 15), hexDigit ((n >>> 24) &&& 15),
   hexDigit ((n >>> 20) &&& 15), hexDigit ((n >>> 16) &&& 15),
   hexDigit ((n >>> 12) &&& 15), hexDigit ((n >>> 8) &&& 15),
   hexDigit ((n >>> 4) &&& 15), hexDigit (n &&& 15)]

/-- `hashlib.sha256(bytes).hexdigest()`. -/
def sha256Hex (msg : List Nat) : String :=
  String.mk ((sha256Words msg).map wordToHex).flatten

/-- `hash_password` (main.py 29-31): SHA-256 hex digest of the UTF-8
encoded password. -/
def hash_password (password : String) : String := sha256Hex (utf8Bytes password)

/-- `verify_password` (main.py 33-35). -/
def verify_password (stored_hash input_password : String) : Bool :=
  stored_hash == hash_password input_password

/-! ## Display validation and glyph substitution (`calculate`, main.py 381-392) -/

/-- The character class of the validation regex `^[\d+\-×÷/().\s]+$`
(main.py 386).  `\d` and `\s` are modelled by `Char.isDigit` and
`Char.isWhitespace` (the keypad only produces ASCII digits and no
whitespace). -/
def allowedChar (c : Char) : Bool :=
  c.isDigit || c == '+' || c == '-' || c == '×' || c == '÷' || c == '/' ||
  c == '(' || c == ')' || c == '.' || c.isWhitespace

/-- `re.match(r'^[\d+\-×÷/().\s]+$', expression)` succeeds: the string is
nonempty and every character is in the class. -/
def validExpression (s : String) : Bool :=
  !s.isEmpty && s.toList.all allowedChar

/-- Python `str.replace` with a single-character pattern and replacement,
modelled character-wise (for one-character patterns the two agree). -/
def pyReplaceChar (pat rep : Char) : List Char → List Char
  | [] => []
  | c :: cs => (if c == pat then rep else c) :: pyReplaceChar pat rep cs

/-- Glyph substitution as the source performs it (main.py 391):
`expression.replace('×', '*').replace('÷', '/')` — first every `×`
becomes `*`, then every `÷` becomes `/`. -/
def pySubstitute (s : String) : String :=
  String.mk (pyReplaceChar '÷' '/' (pyReplaceChar '×' '*' s.toList))

/-- Modelled from the spec's words (refinement comparison only): "the
multiplication and division glyphs are mapped to their standard
arithmetic equivalents before evaluation; all other characters pass
through unchanged" — a single character-wise map. -/
def specGlyphMap (c : Char) : Char :=
  if c == '×' then '*' else if c == '÷' then '/' else c

/-- The spec's substitution: one pass of `specGlyphMap` over the string. -/
def specSubstitute (s : String) : String :=
  String.mk (s.toList.map specGlyphMap)

/-! ## IEEE-754 binary64 arithmetic

CPython's `float` is an IEEE-754 binary64 double.  The model below
represents a double as `nan`, a signed infinity, or a finite value
carried as the exact rational it denotes, and implements the IEEE
operations by exact rational arithmetic followed by rounding to nearest
with ties to even, including gradual underflow (quantum `2 ^ -1074`) and
overflow to infinity at `2 ^ 1024`.  The sign of a floating-point zero
is not tracked: it does not affect the zero tests, `is_integer`, or
`int()` conversions the theorems rely on (only CPython's repr of `-0.0`
would show it, and result formatting is not relied on by any theorem). -/

/-- A binary64 double: not-a-number, a signed infinity (`sign = true`
for negative), or a finite value given by the exact rational it
denotes. -/
inductive F64
  | nan
  | inf (sign : Bool)
  | finite (q : ℚ)
deriving DecidableEq, Repr

/-- Fuel-driven, tail-recursive `⌊log₂ n⌋ + acc` (written so that it
reduces iteratively by kernel computation; wide numbers are consumed 64
bits at a time). -/
def ilog2Nat : Nat → Nat → Nat → Nat
  | 0, _, acc => acc
  | fuel + 1, n, acc =>
      if 18446744073709551616 ≤ n then ilog2Nat fuel (n >>> 64) (acc + 64)
      else if 2 ≤ n then ilog2Nat fuel (n / 2) (acc + 1)
      else acc

/-- `⌊log₂ n⌋` for a natural number. -/
def natLog2F (n : Nat) : Nat := ilog2Nat (n + 1) n 0

/-- `2 ^ e` as a rational, for an integer exponent (computed through a
shift so that it reduces by kernel computation). -/
def qpow2 (e : ℤ) : ℚ :=
  if 0 ≤ e then ((1 <<< e.toNat : ℕ) : ℚ) else (1 : ℚ) / ((1 <<< (-e).toNat : ℕ) : ℚ)

/-- Round a rational to an integer, to nearest with ties to even. -/
def rne (q : ℚ) : ℤ :=
  let f := q.floor
  let r := q - (f : ℚ)
  if r < 1 / 2 then f
  else if 1 / 2 < r then f + 1
  else if f % 2 == 0 then f else f + 1

/-- `⌊log₂ a⌋` for a positive rational: the quotient of the floored
logarithms is off by at most one, so probe the neighbouring
exponents. -/
def ilog2Q (a : ℚ) : ℤ :=
  let e0 : ℤ := (natLog2F a.num.natAbs : ℤ) - (natLog2F a.den : ℤ)
  if qpow2 (e0 + 1) ≤ a then e0 + 1
  else if qpow2 e0 ≤ a then e0
  else e0 - 1

/-- Round an exact rational to the nearest binary64 double (ties to
even): 53-bit significand, gradual underflow below `2 ^ -1022`, and
overflow to infinity when the rounded magnitude reaches `2 ^ 1024`. -/
def roundQ (q : ℚ) : F64 :=
  if q == 0 then .finite 0
  else
    let a := if q < 0 then -q else q
    let e := ilog2Q a
    let sh := max (e - 52) (-1074)
    let m := rne (a / qpow2 sh)
    if m == 0 then .finite 0
    else
      let v := (m : ℚ) * qpow2 sh
      if ((1 <<< 1024 : ℕ) : ℚ) ≤ v then .inf (q < 0)
      else .finite (if q < 0 then -v else v)

/-- IEEE negation. -/
def f64Neg : F64 → F64
  | .nan => .nan
  | .inf s => .inf (!s)
  | .finite q => .finite (-q)

/-- IEEE addition (finite sums are exact rationals rounded once). -/
def f64Add (x y : F64) : F64 :=
  match x, y with
  | .nan, _ => .nan
  | _, .nan => .nan
  | .inf sx, .inf sy => if sx == sy then .inf sx else .nan
  | .inf s, .finite _ => .inf s
  | .finite _, .inf s => .inf s
  | .finite a, .finite b => roundQ (a + b)

/-- IEEE subtraction. -/
def f64Sub (x y : F64) : F64 := f64Add x (f64Neg y)

/-- IEEE multiplication. -/
def f64Mul (x y : F64) : F64 :=
  match x, y with
  | .nan, _ => .nan
  | _, .nan => .nan
  | .inf sx, .inf sy => .inf (xor sx sy)
  | .inf s, .finite q => if q == 0 then .nan else .inf (xor s (q < 0))
  | .finite q, .inf s => if q == 0 then .nan else .inf (xor s (q < 0))
  | .finite a, .finite b => roundQ (a * b)

/-- IEEE division for a divisor that is not a floating-point zero
(CPython raises `ZeroDivisionError` before dividing in that case). -/
def f64Div (x y : F64) : F64 :=
  match x, y with
  | .nan, _ => .nan
  | _, .nan => .nan
  | .inf _, .inf _ => .nan
  | .inf s, .finite q => .inf (xor s (q < 0))
  | .finite _, .inf _ => .finite 0
  | .finite a, .finite b => roundQ (a / b)

/-! ## Python `eval` on the substituted arithmetic fragment

After validation and substitution the string contains only digits,
`+ - * / ( ) .` and whitespace.  Python evaluates it with the standard
expression grammar; the reachable pieces are int and pointfloat
literals, unary `+`/`-`, binary `+ - * / // **`, and parentheses.

Fidelity: Python ints are `Int` (both are arbitrary precision, exact);
Python floats are binary64 doubles as modelled by `F64`.  The operations
modelled as succeeding compute exactly CPython's values: int arithmetic,
correctly rounded float `+ - * /` and int-to-float conversion (with
`OverflowError` where CPython raises it), correctly rounded int/int true
division, int `//`, and int `**` with nonnegative exponent.  The
operations CPython routes through platform libm (`**` with a float
operand or a negative exponent) and float `//` are mapped to the
`unsupported` error instead of guessing their rounding; no theorem below
depends on those branches. -/

/-- Python runtime values reachable here: `int` (arbitrary precision,
exact) and `float` (a binary64 double). -/
inductive Val
  | i (n : ℤ)
  | f (x : F64)
deriving DecidableEq, Repr

/-- Is the value (int or float) zero?  Mirrors CPython's divisor test:
an int zero or a floating-point zero; infinities and nan are not
zero. -/
def isZeroVal : Val → Bool
  | .i n => n == 0
  | .f (.finite q) => q == 0
  | .f _ => false

/-- Evaluation errors.  `zeroDivision` is Python's `ZeroDivisionError`;
`malformed` stands for a `SyntaxError`/`TypeError` (raised before or
instead of evaluation); `overflow` is Python's `OverflowError` (an int
too large to convert or a division result out of double range);
`unsupported` marks the libm-backed operations left out of the model.
`calculate` handles `zeroDivision` specially and everything else through
its generic handler, matching the source's two `except` arms. -/
inductive PyErr
  | zeroDivision
  | malformed
  | overflow
  | unsupported
deriving DecidableEq, Repr

/-- Convert a value to a double, as CPython's float operators convert an
int operand: correctly rounded, `OverflowError` if out of range. -/
def toF64 : Val → Except PyErr F64
  | .f x => .ok x
  | .i n =>
      match roundQ ((n : ℤ) : ℚ) with
      | .inf _ => .error .overflow
      | v => .ok v

/-- Unary minus. -/
def negVal : Val → Val
  | .i n => .i (-n)
  | .f x => .f (f64Neg x)

/-- Python `+`: exact int when both operands are ints, IEEE addition
otherwise (converting an int operand first). -/
def addVal : Val → Val → Except PyErr Val
  | .i a, .i b => .ok (.i (a + b))
  | a, b =>
      match toF64 a, toF64 b with
      | .error e, _ => .error e
      | _, .error e => .error e
      | .ok x, .ok y => .ok (.f (f64Add x y))

/-- Python `-`. -/
def subVal : Val → Val → Except PyErr Val
  | .i a, .i b => .ok (.i (a - b))
  | a, b =>
      match toF64 a, toF64 b with
      | .error e, _ => .error e
      | _, .error e => .error e
      | .ok x, .ok y => .ok (.f (f64Sub x y))

/-- Python `*`. -/
def mulVal : Val → Val → Except PyErr Val
  | .i a, .i b => .ok (.i (a * b))
  | a, b =>
      match toF64 a, toF64 b with
      | .error e, _ => .error e
      | _, .error e => .error e
      | .ok x, .ok y => .ok (.f (f64Mul x y))

/-- Python `/`: raises `ZeroDivisionError` on a zero divisor (int zero
or float zero) before any conversion; int/int is CPython's
`long_true_divide` (correctly rounded, `OverflowError` when the result
leaves double range); otherwise int operands are converted and the IEEE
division is performed. -/
def divVal (a b : Val) : Except PyErr Val :=
  if isZeroVal b then .error .zeroDivision
  else match a, b with
    | .i m, .i n =>
        match roundQ ((m : ℚ) / (n : ℚ)) with
        | .inf _ => .error .overflow
        | v => .ok (.f v)
    | x, y =>
        match toF64 x, toF64 y with
        | .error e, _ => .error e
        | _, .error e => .error e
        | .ok vx, .ok vy => .ok (.f (f64Div vx vy))

/-- Python `//`: raises `ZeroDivisionError` on a zero divisor; exact
floor division for int operands; with a float operand CPython computes
via `fmod` correction, which the model does not replicate
(`unsupported`). -/
def fdivVal (a b : Val) : Except PyErr Val :=
  if isZeroVal b then .error .zeroDivision
  else match a, b with
    | .i m, .i n => .ok (.i (Int.fdiv m n))
    | _, _ => .error .unsupported

/-- Python `**`: exact int power for an int base with a nonnegative int
exponent; a zero int base with a negative int exponent raises
`ZeroDivisionError` (as CPython does before calling `pow`); every other
case goes through platform libm in CPython and is `unsupported` here. -/
def powVal (a b : Val) : Except PyErr Val :=
  match a, b with
  | .i m, .i n =>
      if 0 ≤ n then .ok (.i (m ^ n.toNat))
      else if m == 0 then .error .zeroDivision
      else .error .unsupported
  | _, _ => .error .unsupported

/-- Abstract syntax of the reachable Python expressions.  A float
literal already carries the double CPython's compiler produces for it
(decimal literals are converted with correct rounding, huge ones to
infinity). -/
inductive Expr
  | intLit (n : ℤ)
  | floatLit (x : F64)
  | pos (a : Expr)
  | neg (a : Expr)
  | add (a b : Expr)
  | sub (a b : Expr)
  | mul (a b : Expr)
  | div (a b : Expr)
  | floordiv (a b : Expr)
  | pow (a b : Expr)
deriving DecidableEq, Repr

/-- Strict left-to-right evaluation, mirroring CPython: operands are
evaluated left first, and the first raised exception propagates. -/
def evalE : Expr → Except PyErr Val
  | .intLit n => .ok (.i n)
  | .floatLit x => .ok (.f x)
  | .pos a => evalE a
  | .neg a =>
      match evalE a with
      | .error e => .error e
      | .ok v => .ok (negVal v)
  | .add a b =>
      match evalE a with
      | .error e => .error e
      | .ok va =>
          match evalE b with
          | .error e => .error e
          | .ok vb => addVal va vb
  | .sub a b =>
      match evalE a with
      | .error e => .error e
      | .ok va =>
          match evalE b with
          | .error e => .error e
          | .ok vb => subVal va vb
  | .mul a b =>
      match evalE a with
      | .error e => .error e
      | .ok va =>
          match evalE b with
          | .error e => .error e
          | .ok vb => mulVal va vb
  | .div a b =>
      match evalE a with
      | .error e => .error e
      | .ok va =>
          match evalE b with
          | .error e => .error e
          | .ok vb => divVal va vb
  | .floordiv a b =>
      match evalE a with
      | .error e => .error e
      | .ok va =>
          match evalE b with
          | .error e => .error e
          | .ok vb => fdivVal va vb
  | .pow a b =>
      match evalE a with
      | .error e => .error e
      | .ok va =>
          match evalE b with
          | .error e => .error e
          | .ok vb => powVal va vb

/-! ### Tokenizer

CPython lexes maximal number literals; adjacent digit-and-dot runs that
are not a single literal (two dots, `1.2.3`, a bare `.`) end in a
`SyntaxError`, which this lexer reports as failure directly.  A decimal
int literal may not have leading zeros unless it is all zeros. -/

/-- Tokens of the substituted arithmetic fragment. -/
inductive Token
  | int (n : ℤ)
  | float (x : F64)
  | plus
  | minus
  | star
  | slash
  | dslash
  | dstar
  | lpar
  | rpar
deriving DecidableEq, Repr

/-- Numeric value of a digit character. -/
def digitVal (c : Char) : Nat := c.toNat - 48

/-- Decimal value of a digit list. -/
def digitsToNat (ds : List Char) : Nat :=
  ds.foldl (fun a c => 10 * a + digitVal c) 0

/-- `10 ^ n`, computed by iteration so that it reduces by kernel
computation. -/
def pow10 (n : Nat) : Nat :=
  (List.range n).foldl (fun a _ => a * 10) 1

/-- Turn a maximal run of digits and dots into a number token, following
Python's `decinteger` and `pointfloat` rules.  A float literal is the
exact decimal value rounded to the nearest double, as CPython's
correctly rounded string-to-double conversion produces. -/
def mkNumToken (run : List Char) : Option Token :=
  let dots := (run.filter (fun c => c == '.')).length
  let digs := run.filter Char.isDigit
  if digs.isEmpty then none
  else if dots == 0 then
    if run.length > 1 && run.headD '0' == '0' && !run.all (fun c => c == '0') then
      none
    else some (.int (digitsToNat run))
  else if dots == 1 then
    let ip := run.takeWhile (fun c => c != '.')
    let fp := (run.dropWhile (fun c => c != '.')).drop 1
    some (.float (roundQ ((digitsToNat (ip ++ fp) : ℚ) / ((pow10 fp.length : ℕ) : ℚ))))
  else none

/-- Is the character part of a number run? -/
def numChar (c : Char) : Bool := c.isDigit || c == '.'

/-- Fuel-driven tokenizer.  Returns `none` on a lexical error. -/
def lexChars : Nat → List Char → Option (List Token)
  | 0, _ => none
  | _ + 1, [] => some []
  | fuel + 1, c :: cs =>
      if c.isWhitespace then lexChars fuel cs
      else if numChar c then
        match (c :: cs).span numChar with
        | (run, rest) =>
            match mkNumToken run with
            | none => none
            | some t =>
                match lexChars fuel rest with
                | none => none
                | some ts => some (t :: ts)
      else if c == '+' then
        match lexChars fuel cs with
        | none => none
        | some ts => some (.plus :: ts)
      else if c == '-' then
        match lexChars fuel cs with
        | none => none
        | some ts => some (.minus :: ts)
      else if c == '(' then
        match lexChars fuel cs with
        | none => none
        | some ts => some (.lpar :: ts)
      else if c == ')' then
        match lexChars fuel cs with
        | none => none
        | some ts => some (.rpar :: ts)
      else if c == '*' then
        match cs with
        | '*' :: cs2 =>
            match lexChars fuel cs2 with
            | none => none
            | some ts => some (.dstar :: ts)
        | _ =>
            match lexChars fuel cs with
            | none => none
            | some ts => some (.star :: ts)
      else if c == '/' then
        match cs with
        | '/' :: cs2 =>
            match lexChars fuel cs2 with
            | none => none
            | some ts => some (.dslash :: ts)
        | _ =>
            match lexChars fuel cs with
            | none => none
            | some ts => some (.slash :: ts)
      else none

/-! ### Recursive-descent parser for Python's expression grammar

`a_expr` (left-assoc `+ -`) over `m_expr` (left-assoc `* / //`) over
`u_expr` (unary `+ -`) over `power` (`primary ["**" u_expr]`,
right-assoc) over atoms (number literals and parenthesized
expressions).  Fuel-driven; fuel only bounds the recursion and is chosen
large enough in `parseArith`. -/

mutual

/-- Parse an `a_expr`. -/
def parseA : Nat → List Token → Option (Expr × List Token)
  | 0, _ => none
  | fuel + 1, ts =>
      match parseM fuel ts with
      | none => none
      | some (e, rest) => parseATail fuel e rest

/-- Left-associated tail of an `a_expr`. -/
def parseATail : Nat → Expr → List Token → Option (Expr × List Token)
  | 0, _, _ => none
  | fuel + 1, acc, .plus :: rest =>
      match parseM fuel rest with
      | none => none
      | some (e, rest2) => parseATail fuel (Expr.add acc e) rest2
  | fuel + 1, acc, .minus :: rest =>
      match parseM fuel rest with
      | none => none
      | some (e, rest2) => parseATail fuel (Expr.sub acc e) rest2
  | _ + 1, acc, ts => some (acc, ts)

/-- Parse an `m_expr`. -/
def parseM : Nat → List Token → Option (Expr × List Token)
  | 0, _ => none
  | fuel + 1, ts =>
      match parseU fuel ts with
      | none => none
      | some (e, rest) => parseMTail fuel e rest

/-- Left-associated tail of an `m_expr`. -/
def parseMTail : Nat → Expr → List Token → Option (Expr × List Token)
  | 0, _, _ => none
  | fuel + 1, acc, .star :: rest =>
      match parseU fuel rest with
      | none => none
      | some (e, rest2) => parseMTail fuel (Expr.mul acc e) rest2
  | fuel + 1, acc, .slash :: rest =>
      match parseU fuel rest with
      | none => none
      | some (e, rest2) => parseMTail fuel (Expr.div acc e) rest2
  | fuel + 1, acc, .dslash :: rest =>
      match parseU fuel rest with
      | none => none
      | some (e, rest2) => parseMTail fuel (Expr.floordiv acc e) rest2
  | _ + 1, acc, ts => some (acc, ts)

/-- Parse a `u_expr` (unary plus/minus chain). -/
def parseU : Nat → List Token → Option (Expr × List Token)
  | 0, _ => none
  | fuel + 1, .minus :: rest =>
      match parseU fuel rest with
      | none => none
      | some (e, rest2) => some (Expr.neg e, rest2)
  | fuel + 1, .plus :: rest =>
      match parseU fuel rest with
      | none => none
      | some (e, rest2) => some (Expr.pos e, rest2)
  | fuel + 1, ts => parsePower fuel ts

/-- Parse a `power`: an atom optionally followed by `**` and a `u_expr`
(right-associative, unary minus allowed in the exponent). -/
def parsePower : Nat → List Token → Option (Expr × List Token)
  | 0, _ => none
  | fuel + 1, ts =>
      match parseAtom fuel ts with
      | none => none
      | some (e, rest) =>
          match rest with
          | .dstar :: rest2 =>
              match parseU fuel rest2 with
              | none => none
              | some (e2, rest3) => some (Expr.pow e e2, rest3)
          | _ => some (e, rest)

/-- Parse an atom: a literal or a parenthesized expression. -/
def parseAtom : Nat → List Token → Option (Expr × List Token)
  | 0, _ => none
  | _ + 1, .int n :: rest => some (Expr.intLit n, rest)
  | _ + 1, .float q :: rest => some (Expr.floatLit q, rest)
  | fuel + 1, .lpar :: rest =>
      match parseA fuel rest with
      | none => none
      | some (e, rest2) =>
          match rest2 with
          | .rpar :: rest3 => some (e, rest3)
          | _ => none
  | _ + 1, _ => none

end

/-- Tokenize a string. -/
def tokensOf (s : String) : Option (List Token) :=
  lexChars (s.length + 1) s.toList

/-- Parse a whole string as one expression (Python `eval` succeeds only
if the entire input is a single expression). -/
def parseArith (s : String) : Option Expr :=
  match tokensOf s with
  | none => none
  | some ts =>
      match parseA (10 * ts.length + 10) ts with
      | some (e, []) => some e
      | _ => none

/-- `eval` on a substituted display string: parse failure is a
`SyntaxError` (`malformed`), otherwise evaluate. -/
def evalString (s : String) : Except PyErr Val :=
  match parseArith s with
  | none => .error .malformed
  | some e => evalE e

/-! ## Result normalization and the `calculate` handler (main.py 381-407) -/

/-- Result normalization (main.py 394-398): a float that is integral
becomes an int (`result.is_integer()` / `int(result)` — exact on finite
doubles); otherwise it is rounded to 10 decimal places.  The non-integral
branch idealizes CPython's `round` (which rounds on the double and
returns a double); no theorem below depends on it. -/
def normalizeResult : Val → Val
  | .i n => .i n
  | .f (.finite q) =>
      if q.den == 1 then .i q.num
      else .f (roundQ ((rne (q * 10000000000) : ℚ) / 10000000000))
  | .f x => .f x

/-- `str(result)` (main.py 400).  Faithful for ints; the float branches
are an idealization of CPython float repr (no theorem below depends on
them). -/
def formatVal : Val → String
  | .i n => toString n
  | .f (.finite q) => toString q
  | .f (.inf s) => if s then "-inf" else "inf"
  | .f .nan => "nan"

/-- Errors surfaced by `calculate` via `messagebox.showerror`. -/
inductive CalcError
  | invalidCharacter
  | divisionByZero
  | malformedExpression
deriving DecidableEq, Repr

/-- Outcome of pressing `=`. -/
inductive CalcOutcome
  | error (e : CalcError)
  | success (v : Val)
deriving DecidableEq, Repr

/-- `CalculatorApp.calculate` (main.py 381-407) as a function from the
display string to the outcome and the new display string: failed
validation reports invalid characters and clears; `ZeroDivisionError`
reports division by zero and clears; any other exception reports an
invalid calculation and clears; success shows the normalized result. -/
def runCalculate (display : String) : CalcOutcome × String :=
  if validExpression display then
    match evalString (pySubstitute display) with
    | .error .zeroDivision => (.error .divisionByZero, "0")
    | .error .malformed => (.error .malformedExpression, "0")
    | .error .overflow => (.error .malformedExpression, "0")
    | .error .unsupported => (.error .malformedExpression, "0")
    | .ok v =>
        let r := normalizeResult v
        (.success r, formatVal r)
  else (.error .invalidCharacter, "0")

/-- `CalculatorApp.append_to_display` (main.py 370-375).  The keypad
passes a single character; Python's `text not in "+-×÷()"` is character
membership for one-character strings.  If the display is exactly `"0"`
and the character is not an operator or parenthesis, the display is
first set to `""` and the character appended to that. -/
def append_to_display (current : String) (c : Char) : String :=
  let base := if current == "0" && !("+-×÷()".toList.contains c) then "" else current
  base.push c

/-- `CalculatorApp.clear` (main.py 377-379). -/
def clearDisplay : String := "0"

/-! ## The secret-access gate (main.py 66-179, 243-255, 409-434)

The gate's state is made explicit: a small filesystem model (does the
hidden folder exist, and what does the password file hold), the open
password-prompt session if any, and a count of reveal-callback
invocations.  Filesystem writes are modelled as succeeding (the claims
proved below all presuppose successful storage). -/

/-- The on-disk state the program touches: the hidden folder
`.secret_folder` and the file `.secret_folder/.password`. -/
structure FS where
  folderExists : Bool
  passwordFile : Option String
deriving DecidableEq, Repr

/-- One password-prompt session (`PasswordWindow`, main.py 69-78):
`stored_hash`, `max_attempts`, and the running `attempts` counter. -/
structure PromptState where
  storedHash : String
  maxAttempts : Nat
  attempts : Nat
deriving DecidableEq, Repr

/-- Application state: the display buffer, the filesystem, the open
prompt (if any), and how often the reveal callback has run. -/
structure AppState where
  display : String
  fs : FS
  prompt : Option PromptState
  revealCount : Nat
deriving DecidableEq, Repr

/-- `DEFAULT_PASSWORD` (main.py 246). -/
def DEFAULT_PASSWORD : String := "subscribe"

/-- The credential bootstrap in `CalculatorApp.__init__` (main.py
249-255): `create_hidden_folder` makes the folder if absent, and if the
password file does not exist it is written with
`hash_password(DEFAULT_PASSWORD)` (creation modelled as succeeding). -/
def initCredential (fs : FS) : FS :=
  let fs2 : FS := { fs with folderExists := true }
  match fs2.passwordFile with
  | some _ => fs2
  | none => { fs2 with passwordFile := some (hash_password DEFAULT_PASSWORD) }

/-- `CalculatorApp.open_secret_folder` (main.py 414-434): abort if the
folder is missing (error dialog, no prompt, display untouched);
recreate the password file if missing; read and strip the stored hash;
clear the display; open a `PasswordWindow` with `max_attempts = 3`. -/
def open_secret_folder (st : AppState) : AppState :=
  if st.fs.folderExists then
    let fs2 : FS :=
      match st.fs.passwordFile with
      | some _ => st.fs
      | none => { st.fs with passwordFile := some (hash_password DEFAULT_PASSWORD) }
    let stored := (fs2.passwordFile.getD "").trim
    { st with fs := fs2, display := "0",
              prompt := some { storedHash := stored, maxAttempts := 3, attempts := 0 } }
  else st

/-- `CalculatorApp.check_secret_code` (main.py 409-412), run as the
`display_var` write trace: a display mutation sets the buffer, and if
the stripped value equals the literal trigger `"69÷69"` the secret
folder flow starts. -/
def setDisplay (st : AppState) (v : String) : AppState :=
  let st2 : AppState := { st with display := v }
  if st2.display.trim == "69÷69" then open_secret_folder st2 else st2

/-- Dialog outcomes of one `PasswordWindow.verify` call. -/
inductive GateEvent
  | granted
  | wrongPassword (remaining : Int)
  | attemptsExhausted
  | ignored
deriving DecidableEq, Repr

/-- `PasswordWindow.verify` (main.py 156-179): increment `attempts`,
compute `remaining = max_attempts - attempts`; a matching password runs
the reveal callback once and destroys the window; otherwise, if
`remaining == 0`, show the terminal denial and destroy the window, else
show the warning with the remaining count and keep the prompt open. -/
def verifyStep (st : AppState) (password : String) : AppState × GateEvent :=
  match st.prompt with
  | none => (st, .ignored)
  | some p =>
      let attempts := p.attempts + 1
      let remaining : Int := (p.maxAttempts : Int) - (attempts : Int)
      if verify_password p.storedHash password then
        ({ st with prompt := none, revealCount := st.revealCount + 1 }, .granted)
      else if remaining == 0 then
        ({ st with prompt := none }, .attemptsExhausted)
      else
        ({ st with prompt := some { p with attempts := attempts } },
         .wrongPassword remaining)

/-! ## Auxiliary definitions used by the theorems -/

/-- Did evaluation succeed? -/
def isOkB : Except PyErr Val → Bool
  | .ok _ => true
  | .error _ => false

/-- Did evaluation succeed with a zero value? -/
def isZeroOk : Except PyErr Val → Bool
  | .ok v => isZeroVal v
  | .error _ => false

/-- CPython's left-to-right evaluation reaches a division (`/` or `//`)
whose divisor reduces to zero: either an operand already reaches one, or
every part evaluated before the division succeeds and the divisor
evaluates to zero. -/
def divReaches : Expr → Bool
  | .intLit _ => false
  | .floatLit _ => false
  | .pos a => divReaches a
  | .neg a => divReaches a
  | .add a b => divReaches a || (isOkB (evalE a) && divReaches b)
  | .sub a b => divReaches a || (isOkB (evalE a) && divReaches b)
  | .mul a b => divReaches a || (isOkB (evalE a) && divReaches b)
  | .pow a b => divReaches a || (isOkB (evalE a) && divReaches b)
  | .div a b =>
      divReaches a || (isOkB (evalE a) && (divReaches b || isZeroOk (evalE b)))
  | .floordiv a b =>
      divReaches a || (isOkB (evalE a) && (divReaches b || isZeroOk (evalE b)))

/-- Modelled from the claim's words: the character set the first claim
asserts to be the only permitted one — digits, the four display operator
glyphs, parentheses, the decimal point, and whitespace.  (The code's
regex additionally permits the plain slash; compare `allowedChar`.) -/
def claimedAllowedChar (c : Char) : Bool :=
  c.isDigit || c == '+' || c == '-' || c == '×' || c == '÷' ||
  c == '(' || c == ')' || c == '.' || c.isWhitespace

/-- `hashlib.sha256(b"subscribe").hexdigest()`. -/
def subscribeHash : String :=
  "f40fd562f63078722310bf105375576916ef81609331c36aa36015b4f56f9082"

/-- A concrete application state with the storage in place (used by
witnesses). -/
def probeState : AppState :=
  { display := "0", fs := { folderExists := true, passwordFile := some "h" },
    prompt := none, revealCount := 0 }

/-- A concrete application state with an open password prompt holding
the default credential hash (used by witnesses). -/
def promptProbe : AppState :=
  { display := "0", fs := { folderExists := true, passwordFile := some subscribeHash },
    prompt := some { storedHash := subscribeHash, maxAttempts := 3, attempts := 0 },
    revealCount := 0 }

/-! ## Helper lemmas -/

/-- The source's two sequential single-character replaces equal one
character-wise pass of the spec's glyph map. -/
theorem pyReplaceChar_pair_eq_map (cs : List Char) :
    pyReplaceChar '÷' '/' (pyReplaceChar '×' '*' cs) = cs.map specGlyphMap := by
  induction cs with
  | nil => rfl
  | cons c cs ih =>
      simp only [pyReplaceChar, List.map, ih, List.cons.injEq, and_true]
      by_cases h1 : c = '×'
      · subst h1; rfl
      · by_cases h2 : c = '÷'
        · subst h2; rfl
        · have b1 : (c == '×') = false := beq_eq_false_iff_ne.mpr h1
          have b2 : (c == '÷') = false := beq_eq_false_iff_ne.mpr h2
          simp [specGlyphMap, b1, b2]

/-- The code's substitution (main.py 391) equals the spec's single
character-wise substitution, on every string. -/
theorem pySubstitute_eq_specSubstitute (s : String) :
    pySubstitute s = specSubstitute s := by
  unfold pySubstitute specSubstitute
  rw [pyReplaceChar_pair_eq_map]

/-- If evaluation reaches a division with a zero divisor, the whole
evaluation raises `ZeroDivisionError`. -/
theorem divReaches_eval (e : Expr) (h : divReaches e = true) :
    evalE e = .error .zeroDivision := by
  induction e with
  | intLit n => simp [divReaches] at h
  | floatLit q => simp [divReaches] at h
  | pos a iha =>
      rw [divReaches] at h
      simp only [evalE]; exact iha h
  | neg a iha =>
      rw [divReaches] at h
      simp [evalE, iha h]
  | add a b iha ihb =>
      simp only [divReaches, Bool.or_eq_true, Bool.and_eq_true] at h
      rcases h with h | ⟨hok, hb⟩
      · simp [evalE, iha h]
      · cases hEa : evalE a with
        | error e => rw [hEa] at hok; simp [isOkB] at hok
        | ok va => simp [evalE, hEa, ihb hb]
  | sub a b iha ihb =>
      simp only [divReaches, Bool.or_eq_true, Bool.and_eq_true] at h
      rcases h with h | ⟨hok, hb⟩
      · simp [evalE, iha h]
      · cases hEa : evalE a with
        | error e => rw [hEa] at hok; simp [isOkB] at hok
        | ok va => simp [evalE, hEa, ihb hb]
  | mul a b iha ihb =>
      simp only [divReaches, Bool.or_eq_true, Bool.and_eq_true] at h
      rcases h with h | ⟨hok, hb⟩
      · simp [evalE, iha h]
      · cases hEa : evalE a with
        | error e => rw [hEa] at hok; simp [isOkB] at hok
        | ok va => simp [evalE, hEa, ihb hb]
  | pow a b iha ihb =>
      simp only [divReaches, Bool.or_eq_true, Bool.and_eq_true] at h
      rcases h with h | ⟨hok, hb⟩
      · simp [evalE, iha h]
      · cases hEa : evalE a with
        | error e => rw [hEa] at hok; simp [isOkB] at hok
        | ok va => simp [evalE, hEa, ihb hb]
  | div a b iha ihb =>
      simp only [divReaches, Bool.or_eq_true, Bool.and_eq_true] at h
      rcases h with h | ⟨hok, hrest⟩
      · simp [evalE, iha h]
      · cases hEa : evalE a with
        | error e => rw [hEa] at hok; simp [isOkB] at hok
        | ok va =>
            rcases hrest with hb | hz
            · simp [evalE, hEa, ihb hb]
            · cases hEb : evalE b with
              | error e => rw [hEb] at hz; simp [isZeroOk] at hz
              | ok vb =>
                  rw [hEb] at hz; simp only [isZeroOk] at hz
                  simp [evalE, hEa, hEb, divVal, hz]
  | floordiv a b iha ihb =>
      simp only [divReaches, Bool.or_eq_true, Bool.and_eq_true] at h
      rcases h with h | ⟨hok, hrest⟩
      · simp [evalE, iha h]
      · cases hEa : evalE a with
        | error e => rw [hEa] at hok; simp [isOkB] at hok
        | ok va =>
            rcases hrest with hb | hz
            · simp [evalE, hEa, ihb hb]
            · cases hEb : evalE b with
              | error e => rw [hEb] at hz; simp [isZeroOk] at hz
              | ok vb =>
                  rw [hEb] at hz; simp only [isZeroOk] at hz
                  simp [evalE, hEa, hEb, fdivVal, hz]

/-! ## Claim theorems -/

/-- C1 (counterexample): the claim "every display string containing a
character outside digits, the four glyphs, parentheses, the decimal
point, and whitespace fails with InvalidCharacter" is false on the code:
`"4/2"` contains `/`, which is outside that set, yet `calculate`
evaluates it successfully to `2` instead of reporting invalid
characters — the regex in main.py 386 also permits the plain slash. -/
theorem claim_invalid_character_counterexample :
    ("4/2").toList.any (fun c => !claimedAllowedChar c) = true ∧
    runCalculate "4/2" = (CalcOutcome.success (Val.i 2), "2") ∧
    (CalcOutcome.success (Val.i 2), ("2" : String)) ≠
      (CalcOutcome.error CalcError.invalidCharacter, "0") :=
  ⟨by decide, by with_unfolding_all rfl, by decide⟩

/-- C1 (amended): for every display string containing a character
outside digits, the four display operator glyphs, the plain slash,
parentheses, the decimal point, and whitespace, pressing `=` fails with
the invalid-character error and the display is reset to `"0"`. -/
theorem calculate_invalid_character_resets (s : String)
    (h : s.toList.any (fun c => !allowedChar c) = true) :
    runCalculate s = (CalcOutcome.error CalcError.invalidCharacter, "0") := by
  have hv : validExpression s = false := by
    rcases List.any_eq_true.mp h with ⟨c, hc, hcc⟩
    unfold validExpression
    cases hall : s.toList.all allowedChar with
    | true =>
        have := List.all_eq_true.mp hall c hc
        rw [this] at hcc
        simp at hcc
    | false => simp
  simp [runCalculate, hv]

/-- C1 (witness): `"2a+1"` contains a disallowed character and is
rejected with a reset display. -/
theorem calculate_invalid_character_resets_witness :
    ("2a+1").toList.any (fun c => !allowedChar c) = true ∧
    runCalculate "2a+1" = (CalcOutcome.error CalcError.invalidCharacter, "0") :=
  ⟨by decide, calculate_invalid_character_resets "2a+1" (by decide)⟩

/-- C2: when the storage folder exists, a display mutation whose trimmed
value is exactly `"69÷69"` opens the password prompt and resets the
display to `"0"`, and a mutation to any other value neither opens a
prompt nor touches the rest of the state. -/
theorem secret_trigger_characterization (st : AppState) (v : String)
    (hfs : st.fs.folderExists = true) :
    (v.trim = "69÷69" →
        (setDisplay st v).prompt.isSome = true ∧ (setDisplay st v).display = "0") ∧
    (v.trim ≠ "69÷69" →
        (setDisplay st v).prompt = st.prompt ∧ (setDisplay st v).display = v) := by
  constructor
  · intro htrig
    simp only [setDisplay, htrig]
    simp only [open_secret_folder, hfs]
    cases hpf : st.fs.passwordFile with
    | none => simp [hpf]
    | some stored => simp [hpf]
  · intro hne
    have hb : (v.trim == "69÷69") = false := beq_eq_false_iff_ne.mpr hne
    simp [setDisplay, hb]

/-- C2 (witness): in a concrete state with the folder present, setting
the display to `"69÷69"` opens the prompt and resets the display. -/
theorem secret_trigger_characterization_witness :
    probeState.fs.folderExists = true ∧
    (("69÷69" : String).trim = "69÷69" →
        (setDisplay probeState "69÷69").prompt.isSome = true ∧
        (setDisplay probeState "69÷69").display = "0") ∧
    (("69÷69" : String).trim ≠ "69÷69" →
        (setDisplay probeState "69÷69").prompt = probeState.prompt ∧
        (setDisplay probeState "69÷69").display = "69÷69") :=
  ⟨rfl, secret_trigger_characterization probeState "69÷69" rfl⟩

/-- C3: with a prompt open, submitting a password whose hash equals the
stored hash at any remaining-attempt count ≥ 1 grants access: the
reveal callback runs exactly once (the invocation count rises by one),
the prompt closes, and the reported event is `granted`. -/
theorem verify_correct_password_grants (st : AppState) (p : PromptState) (pw : String)
    (hp : st.prompt = some p)
    (hcorrect : hash_password pw = p.storedHash)
    (_hrem : 1 ≤ (p.maxAttempts : Int) - (p.attempts : Int)) :
    verifyStep st pw =
      ({ st with prompt := none, revealCount := st.revealCount + 1 },
       GateEvent.granted) := by
  have hv : verify_password p.storedHash pw = true := by
    unfold verify_password
    rw [hcorrect]
    exact beq_self_eq_true _
  simp [verifyStep, hp, hv]

/-- C3 (witness): submitting the default password `"subscribe"` against
its stored hash with 3 attempts remaining grants access. -/
theorem verify_correct_password_grants_witness :
    promptProbe.prompt =
      some { storedHash := subscribeHash, maxAttempts := 3, attempts := 0 } ∧
    hash_password "subscribe" = subscribeHash ∧
    1 ≤ ((3 : Nat) : Int) - ((0 : Nat) : Int) ∧
    verifyStep promptProbe "subscribe" =
      ({ promptProbe with prompt := none, revealCount := promptProbe.revealCount + 1 },
       GateEvent.granted) :=
  ⟨rfl, by with_unfolding_all rfl, by decide,
   verify_correct_password_grants promptProbe
     { storedHash := subscribeHash, maxAttempts := 3, attempts := 0 } "subscribe"
     rfl (by with_unfolding_all rfl) (by decide)⟩

/-- C4: from a fresh prompt session with `max_attempts = 3`, three
consecutive wrong passwords produce two warnings (2 then 1 attempts
remaining) and then the terminal denial: the prompt closes via
`attemptsExhausted` and the reveal callback is never invoked in the
session (the invocation count is unchanged). -/
theorem three_wrong_passwords_exhaust (st : AppState) (p : PromptState)
    (pw1 pw2 pw3 : String)
    (hp : st.prompt = some p) (ha : p.attempts = 0) (hm : p.maxAttempts = 3)
    (h1 : verify_password p.storedHash pw1 = false)
    (h2 : verify_password p.storedHash pw2 = false)
    (h3 : verify_password p.storedHash pw3 = false) :
    (verifyStep st pw1).2 = GateEvent.wrongPassword 2 ∧
    (verifyStep (verifyStep st pw1).1 pw2).2 = GateEvent.wrongPassword 1 ∧
    (verifyStep (verifyStep (verifyStep st pw1).1 pw2).1 pw3).2 =
      GateEvent.attemptsExhausted ∧
    (verifyStep (verifyStep (verifyStep st pw1).1 pw2).1 pw3).1.prompt = none ∧
    (verifyStep (verifyStep (verifyStep st pw1).1 pw2).1 pw3).1.revealCount =
      st.revealCount := by
  obtain ⟨stored, maxA, att⟩ := p
  simp only at ha hm
  subst ha hm
  simp only at h1 h2 h3
  simp [verifyStep, hp, h1, h2, h3]

/-- C4 (witness): three wrong passwords against the default credential
hash exhaust a fresh 3-attempt session without revealing. -/
theorem three_wrong_passwords_exhaust_witness :
    promptProbe.prompt =
      some { storedHash := subscribeHash, maxAttempts := 3, attempts := 0 } ∧
    verify_password subscribeHash "qwerty" = false ∧
    verify_password subscribeHash "letmein" = false ∧
    verify_password subscribeHash "hunter2" = false ∧
    (verifyStep promptProbe "qwerty").2 = GateEvent.wrongPassword 2 ∧
    (verifyStep (verifyStep promptProbe "qwerty").1 "letmein").2 =
      GateEvent.wrongPassword 1 ∧
    (verifyStep (verifyStep (verifyStep promptProbe "qwerty").1 "letmein").1
        "hunter2").2 = GateEvent.attemptsExhausted ∧
    (verifyStep (verifyStep (verifyStep promptProbe "qwerty").1 "letmein").1
        "hunter2").1.prompt = none ∧
    (verifyStep (verifyStep (verifyStep promptProbe "qwerty").1 "letmein").1
        "hunter2").1.revealCount = promptProbe.revealCount :=
  ⟨rfl, by with_unfolding_all rfl, by with_unfolding_all rfl, by with_unfolding_all rfl,
   three_wrong_passwords_exhaust promptProbe
     { storedHash := subscribeHash, maxAttempts := 3, attempts := 0 }
     "qwerty" "letmein" "hunter2" rfl rfl rfl
     (by with_unfolding_all rfl) (by with_unfolding_all rfl) (by with_unfolding_all rfl)⟩

/-- C5: after the first-run credential bootstrap with no password file
present (and creation succeeding), the stored credential is exactly the
hex-encoded SHA-256 hash of the literal default password `"subscribe"`
(whose digest is the constant below). -/
theorem first_run_credential_hash (fs : FS) (h : fs.passwordFile = none) :
    (initCredential fs).passwordFile =
      some "f40fd562f63078722310bf105375576916ef81609331c36aa36015b4f56f9082" ∧
    hash_password DEFAULT_PASSWORD =
      "f40fd562f63078722310bf105375576916ef81609331c36aa36015b4f56f9082" := by
  constructor
  · simp only [initCredential, h]
    with_unfolding_all rfl
  · with_unfolding_all rfl

/-- C5 (witness): bootstrapping from an empty filesystem stores the
SHA-256 digest of `"subscribe"`. -/
theorem first_run_credential_hash_witness :
    (FS.mk false none).passwordFile = none ∧
    (initCredential (FS.mk false none)).passwordFile =
      some "f40fd562f63078722310bf105375576916ef81609331c36aa36015b4f56f9082" :=
  ⟨rfl, (first_run_credential_hash (FS.mk false none) rfl).1⟩

/-- C6: for every display string of permitted characters, evaluating
after the code's substitution (`replace('×','*')` then
`replace('÷','/')`) yields the same result as evaluating the substituted
arithmetic form described by the spec (one character-wise glyph map)
directly. -/
theorem substitution_purity (s : String) (_h : validExpression s = true) :
    evalString (pySubstitute s) = evalString (specSubstitute s) := by
  rw [pySubstitute_eq_specSubstitute]

/-- C6 (witness): substitution purity at the display string `"8×2"`. -/
theorem substitution_purity_witness :
    validExpression "8×2" = true ∧
    evalString (pySubstitute "8×2") = evalString (specSubstitute "8×2") :=
  ⟨by decide, substitution_purity "8×2" (by decide)⟩

/-- C7: for every valid display string whose evaluation reaches a
division with a divisor reducing to zero, pressing `=` fails with the
division-by-zero error and the display is reset to `"0"`. -/
theorem division_by_zero_resets (s : String) (e : Expr)
    (hvalid : validExpression s = true)
    (hparse : parseArith (pySubstitute s) = some e)
    (hdiv : divReaches e = true) :
    runCalculate s = (CalcOutcome.error CalcError.divisionByZero, "0") := by
  have heval : evalE e = .error .zeroDivision := divReaches_eval e hdiv
  simp [runCalculate, hvalid, evalString, hparse, heval]

/-- C7 (witness): the display `"1÷0"` reports division by zero and
resets. -/
theorem division_by_zero_resets_witness :
    validExpression "1÷0" = true ∧
    parseArith (pySubstitute "1÷0") =
      some (Expr.div (Expr.intLit 1) (Expr.intLit 0)) ∧
    divReaches (Expr.div (Expr.intLit 1) (Expr.intLit 0)) = true ∧
    runCalculate "1÷0" = (CalcOutcome.error CalcError.divisionByZero, "0") :=
  ⟨by decide, by with_unfolding_all rfl, by decide,
   division_by_zero_resets "1÷0" (Expr.div (Expr.intLit 1) (Expr.intLit 0))
     (by decide) (by with_unfolding_all rfl) (by decide)⟩

/-- C10: a keypad character `c` replaces the display when it is exactly
`"0"` and `c` is none of `+ - × ÷ ( )` (so `.` at `"0"` yields `"."`,
not `"0."`); otherwise `c` is appended to the end of the display. -/
theorem append_to_display_characterization (current : String) (c : Char) :
    (current = "0" → ("+-×÷()".toList.contains c) = false →
        append_to_display current c = String.singleton c) ∧
    ((current = "0" → ("+-×÷()".toList.contains c) = true) →
        append_to_display current c = current.push c) ∧
    append_to_display "0" '.' = "." := by
  refine ⟨?_, ?_, by decide⟩
  · intro h0 hc
    subst h0
    show (if ("0" == "0" && !("+-×÷()".toList.contains c)) = true
          then "" else "0").push c = String.singleton c
    rw [hc]
    rfl
  · intro himp
    by_cases h0 : current = "0"
    · have hc := himp h0
      subst h0
      show (if ("0" == "0" && !("+-×÷()".toList.contains c)) = true
            then "" else "0").push c = String.push "0" c
      rw [hc]
      rfl
    · have hb : (current == "0") = false := beq_eq_false_iff_ne.mpr h0
      show (if (current == "0" && !("+-×÷()".toList.contains c)) = true
            then "" else current).push c = current.push c
      rw [hb]
      rfl

/-- C10 (witness): pressing `7` at `"0"` replaces the zero; pressing `3`
at `"12"` appends. -/
theorem append_to_display_characterization_witness :
    append_to_display "0" '7' = String.singleton '7' ∧
    append_to_display "12" '3' = String.push "12" '3' :=
  ⟨(append_to_display_characterization "0" '7').1 rfl (by decide),
   (append_to_display_characterization "12" '3').2.1
     (fun h => absurd h (by decide))⟩

end PyCalc
